import Mathlib

/-!
Formal model of the Demandes-ESEB backend (src/backend/server.py).

The Python backend is a FastAPI application over a MongoDB store.  This file
gives a shallow embedding of its data model and of the request endpoints the
specification talks about: the pydantic payload models and the asset-tag
validator, the serial-number check of `update_request`, the partial-update
("$set") semantics, the auto PDF-generation step triggered on the status
"prepare", the best-effort TopDesk webhook of `create_request`, and the
access checks of `get_request` / `download_pdf`.

Modelling conventions, stated once:
  * Mongo documents become Lean structures; a Python `dict` valued field
    becomes an association list `List (String × String)` (`dict.get` is
    `dictGet`, first match wins, as for a Python dict whose keys are unique).
  * Python `Optional` values become `Option`; Python truthiness of an
    optional dict / string is `dictTruthy` / `strOptTruthy` (None, the empty
    dict and the empty string are falsy).
  * Fallible code returns `Except`: an uncaught Python exception is
    `Except.error`, an HTTPException is `ApiError.httpError code detail`.
    A `try/except` block is a `match` on the `Except` of its body.
  * The wall clock (`datetime.utcnow().isoformat()`, `datetime.now()`
    date strings) is passed in as explicit `now` / `today` arguments.
  * String literals from the source are transliterated to plain ASCII
    (accents and apostrophes dropped); only their identity, never their
    exact spelling, matters to the statements proved here.
-/

namespace ESEB

/-- Python dict lookup `m.get(k)` on an association list: the value of the
first pair whose key is `k`, if any. -/
def dictGet (m : List (String × String)) (k : String) : Option String :=
  (m.find? (fun p => p.1 == k)).map Prod.snd

/-- Truthiness of a Python `Optional[dict]`: `None` and `{}` are falsy,
a non-empty dict is truthy. -/
def dictTruthy : Option (List (String × String)) → Bool
  | none => false
  | some m => !m.isEmpty

/-- Truthiness of a Python `Optional[str]`: `None` and `""` are falsy. -/
def strOptTruthy : Option String → Bool
  | none => false
  | some s => !s.isEmpty

/-- `BeneficiaireInfo` (server.py lines 69-76). -/
structure BeneficiaireInfo where
  nom : String
  prenom : String
  date_naissance : String
  ecole : String
  classe : String
  qualite_ebs : String
  personne_reference : Option String
deriving DecidableEq, Repr

/-- `DeviceRequest`, the creation payload (server.py lines 78-91). -/
structure DeviceRequest where
  devices : List String
  application_requirements : String
  beneficiaire : BeneficiaireInfo
  lieu_reception : Option String
  duree_fin_disposition : Option String
  phone : Option String
  address : Option String
deriving DecidableEq, Repr

/-- A user document as stored by `/api/register` (server.py lines 401-412);
the password hash and created_at are irrelevant here and omitted. -/
structure User where
  id : String
  email : String
  first_name : String
  last_name : String
  role : String
  fonction : Option String
  adresse_complete : Option String
  telephone : Option String
deriving DecidableEq, Repr

/-- A device-request document as stored in `requests_collection`
(created at server.py lines 475-488, mutated by `update_request`).  The
three admin fields and the two PDF fields are absent (`none`) until an
update sets them. -/
structure StoredRequest where
  id : String
  user_id : String
  devices : List String
  application_requirements : String
  beneficiaire : BeneficiaireInfo
  lieu_reception : Option String
  duree_fin_disposition : Option String
  phone : Option String
  address : Option String
  status : String
  created_at : String
  updated_at : String
  device_serial_numbers : Option (List (String × String))
  device_asset_tags : Option (List (String × String))
  admin_notes : Option String
  official_pdf_path : Option String
  official_pdf_generated : Option Bool
deriving DecidableEq, Repr

/-- `RequestUpdate`, the admin update payload (server.py lines 93-97):
`status` is a mandatory field of every update call, the other three are
optional. -/
structure RequestUpdate where
  status : String
  device_serial_numbers : Option (List (String × String)) := none
  device_asset_tags : Option (List (String × String)) := none
  admin_notes : Option String := none
deriving DecidableEq, Repr

/-- The non-ASCII ranges of Unicode general category Nd (decimal digits),
generated from CPython 3.11 `unicodedata` (Unicode 14.0.0): together with
the ASCII digits 0x30-0x39 these are exactly the characters Python regex
`\d` matches against a `str` pattern. -/
def ndNonAsciiRanges : List (Nat × Nat) :=
  [(0x660, 0x669), (0x6F0, 0x6F9), (0x7C0, 0x7C9), (0x966, 0x96F),
   (0x9E6, 0x9EF), (0xA66, 0xA6F), (0xAE6, 0xAEF), (0xB66, 0xB6F),
   (0xBE6, 0xBEF), (0xC66, 0xC6F), (0xCE6, 0xCEF), (0xD66, 0xD6F),
   (0xDE6, 0xDEF), (0xE50, 0xE59), (0xED0, 0xED9), (0xF20, 0xF29),
   (0x1040, 0x1049), (0x1090, 0x1099), (0x17E0, 0x17E9), (0x1810, 0x1819),
   (0x1946, 0x194F), (0x19D0, 0x19D9), (0x1A80, 0x1A89), (0x1A90, 0x1A99),
   (0x1B50, 0x1B59), (0x1BB0, 0x1BB9), (0x1C40, 0x1C49), (0x1C50, 0x1C59),
   (0xA620, 0xA629), (0xA8D0, 0xA8D9), (0xA900, 0xA909), (0xA9D0, 0xA9D9),
   (0xA9F0, 0xA9F9), (0xAA50, 0xAA59), (0xABF0, 0xABF9), (0xFF10, 0xFF19),
   (0x104A0, 0x104A9), (0x10D30, 0x10D39), (0x11066, 0x1106F),
   (0x110F0, 0x110F9), (0x11136, 0x1113F), (0x111D0, 0x111D9),
   (0x112F0, 0x112F9), (0x11450, 0x11459), (0x114D0, 0x114D9),
   (0x11650, 0x11659), (0x116C0, 0x116C9), (0x11730, 0x11739),
   (0x118E0, 0x118E9), (0x11950, 0x11959), (0x11C50, 0x11C59),
   (0x11D50, 0x11D59), (0x11DA0, 0x11DA9), (0x16A60, 0x16A69),
   (0x16AC0, 0x16AC9), (0x16B50, 0x16B59), (0x1D7CE, 0x1D7FF),
   (0x1E140, 0x1E149), (0x1E2F0, 0x1E2F9), (0x1E950, 0x1E959),
   (0x1FBF0, 0x1FBF9)]

/-- Python regex `\d` on a `str` pattern: any Unicode decimal digit
(general category Nd) — the ASCII digits (`Char.isDigit`) or a character
of one of the other Nd ranges. -/
def pyIsDigit (c : Char) : Bool :=
  c.isDigit
    || ndNonAsciiRanges.any
        (fun p => decide (p.1 ≤ c.toNat) && decide (c.toNat ≤ p.2))

/-- The body of the regex `^H\d{5}$`, parametrised by the digit class: the
character H followed by five digit characters and nothing else. -/
def tagCoreWith (digit : Char → Bool) (cs : List Char) : Bool :=
  match cs with
  | c :: rest => c == 'H' && rest.length == 5 && rest.all digit
  | [] => false

/-- The trailing-newline alternative Python `$` admits: H, five digits, one
final newline. -/
def tagNewlineWith (digit : Char → Bool) (cs : List Char) : Bool :=
  match cs with
  | c :: rest =>
      c == 'H' && rest.length == 6 && (rest.take 5).all digit
        && rest.drop 5 == ['\n']
  | [] => false

/-- The regex `^H\d{5}$` body under Python `re.match` semantics with
Python's Unicode `\d`. -/
def tagCoreMatches (cs : List Char) : Bool := tagCoreWith pyIsDigit cs

def tagNewlineMatches (cs : List Char) : Bool := tagNewlineWith pyIsDigit cs

/-- `pattern.match(tag)` for `pattern = re.compile(r'^H\d{5}$')` (server.py
lines 104-106): an anchored match succeeds on exactly the character H
followed by five Unicode decimal digits, or on that followed by one final
newline, because Python `$` also matches just before a newline that ends
the string. -/
def tagMatches (s : String) : Bool :=
  tagCoreMatches s.toList || tagNewlineMatches s.toList

/-- The validation error raised for a malformed tag, naming the offending
device (server.py line 107, transliterated). -/
def tagErrMsg (device : String) : String :=
  "Asset tag pour " ++ device ++ " doit etre au format H12345 (H suivi de 5 chiffres)"

/-- `RequestUpdate.validate_asset_tags` (server.py lines 99-108): `None`
passes through; otherwise every truthy (non-empty) tag must match the
pattern, and the first offending (device, tag) pair raises a ValueError
naming the device.  Pydantic surfaces that ValueError as a 422 before the
endpoint body runs. -/
def validate_asset_tags : Option (List (String × String)) → Except String (Option (List (String × String)))
  | none => Except.ok none
  | some v =>
      match v.find? (fun p => !p.2.isEmpty && !tagMatches p.2) with
      | some p => Except.error (tagErrMsg p.1)
      | none => Except.ok (some v)

/-- Modelled from the spec words, for comparison with the code (claim C4):
the claim's own pattern `^H[0-9]{5}$` — exactly one uppercase H followed by
5 ASCII decimal digits and nothing else. -/
def specTagCore (cs : List Char) : Bool := tagCoreWith Char.isDigit cs

/-- Modelled from the spec words (claim C4): a tag is accepted iff it is
empty or matches `^H[0-9]{5}$` read as "exactly one uppercase H followed by
5 decimal digits" and nothing else. -/
def specAcceptsTag (t : String) : Bool :=
  t == "" || specTagCore t.toList

/-! ## The PDF renderer (`generate_official_ebs_pdf`, server.py lines 165-389)

The reportlab story is modelled as a list of flowables; a table cell is an
`Option String` because the Python code places the raw value of a
`dict.get` there, which is `None` when the stored optional field is None
(the stored documents always carry every key, so the `.get` defaults of the
source are unreachable and the stored value is used directly).  The point
that matters: every `Table(...)` call of the source passes
`colWidths=[8*cm, 10*cm]`, and the name `cm` is never imported — line 20 of
server.py imports only `inch` and `mm` from `reportlab.lib.units` — so the
first table construction raises `NameError: name cm is not defined`. -/

/-- A table cell: the raw Python value, `none` for Python `None`. -/
abbrev Cell := Option String

/-- One reportlab flowable of the story, with each table column width kept
symbolically as (factor, unit-name). -/
inductive Flowable where
  | para (text : String)
  | spacer (w : Nat) (hgt : Nat)
  | table (rows : List (List Cell)) (colWidths : List (Nat × String))
deriving DecidableEq, Repr

/-- The names imported from `reportlab.lib.units` at module top
(server.py line 20): `inch` and `mm` only. -/
def importedUnits : List String := ["inch", "mm"]

/-- Resolving a module-level unit name: a name outside the import list
raises a NameError, exactly Python name resolution for this module. -/
def evalUnitName (n : String) : Except String String :=
  if importedUnits.contains n then Except.ok n
  else Except.error ("NameError: name " ++ n ++ " is not defined")

/-- The column widths `[8*cm, 10*cm]` passed to every table of the renderer
(server.py lines 214, 238, 273, 291, 314, 336): evaluating them resolves
the name `cm` first. -/
def stdColWidths : Except String (List (Nat × String)) := do
  let u ← evalUnitName "cm"
  pure [(8, u), (10, u)]

/-- The device-kind → human label mapping of the renderer
(server.py lines 251-255). -/
def device_mapping : List (String × String) :=
  [("ipad", "iPad avec clavier ergonomique"),
   ("macbook", "MacBook"),
   ("apple_pencil", "Apple Pencil")]

/-- `generate_official_ebs_pdf` (server.py lines 165-389): builds the story
section by section; each section table evaluates `stdColWidths`, and the
very first one (the Demandeur table, line 214) raises the NameError, so the
renderer never returns.  `today` stands for `datetime.now()` formatted at
line 211.  The fixed legal-notice text of page 2 is abridged to its opening
words; it is constant and never inspected. -/
def generate_official_ebs_pdf (request_data : StoredRequest) (user_data : User)
    (today : String) : Except String (List Flowable) := do
  let headerLogo := Flowable.para "VILLE DE LUXEMBOURG"
  let title := Flowable.para
    "Mise a disposition de materiels informatiques dans le cadre de l inclusion des eleves a besoins specifiques (EBS)"
  let demandeur_data : List (List Cell) :=
    [[some "Demandeur - Direction de l enseignement fondamental - Region 1", some ""],
     [some "Nom et Prenom", some (user_data.first_name ++ " " ++ user_data.last_name)],
     [some "Fonction", user_data.fonction],
     [some "Adresse", user_data.adresse_complete],
     [some "Telephone", user_data.telephone],
     [some "Email", some user_data.email],
     [some "Date de la demande", some today]]
  let w1 ← stdColWidths
  let beneficiaire := request_data.beneficiaire
  let profit_data : List (List Cell) :=
    [[some "Au profit de", some ""],
     [some "Nom et Prenom", some (beneficiaire.prenom ++ " " ++ beneficiaire.nom)],
     [some "Qualite EBS (ESS, ESEB)", some beneficiaire.qualite_ebs],
     [some "Date de naissance", some beneficiaire.date_naissance],
     [some "Ecole (si applicable)", some beneficiaire.ecole],
     [some "Classe (si applicable)", some beneficiaire.classe],
     [some "Personne de reference (si applicable)", beneficiaire.personne_reference]]
  let w2 ← stdColWidths
  let devices_text := request_data.devices.map
    (fun d => ((device_mapping.find? (fun p => p.1 == d)).map Prod.snd).getD d)
  let quantities := request_data.devices.map (fun _ => "1")
  let materiel_data : List (List Cell) :=
    [[some "Materiel informatique souhaite", some ""],
     [some "Materiel (iPad, Laptop)", some (String.intercalate "\n" devices_text)],
     [some "Quantite", some (String.intercalate "\n" quantities)],
     [some "Lieu de reception du materiel", request_data.lieu_reception],
     [some "Remarque eventuelle sur le lieu d utilisation du materiel", some "A l ecole et a domicile"],
     [some "", some ""],
     [some "Applications ou logiciels installes", some request_data.application_requirements]]
  let w3 ← stdColWidths
  let duree_data : List (List Cell) :=
    [[some "Duree de fin de mise a disposition", some ""],
     [some "", request_data.duree_fin_disposition]]
  let w4 ← stdColWidths
  let avis_data : List (List Cell) :=
    [[some "Avis du Centre Technolink", some ""],
     [some "Nom et Prenom", some ""],
     [some "Email ou Telephone", some ""],
     [some "Numero de serie materiel", some ""],
     [some "Avis et date", some ""],
     [some "", some ""],
     [some "Signature du Responsable ou de son representant", some ""]]
  let w5 ← stdColWidths
  let accuse_data : List (List Cell) :=
    [[some "Accuse de reception du materiel", some ""],
     [some "Nom et Prenom du parent ou representant",
      some (beneficiaire.prenom ++ " " ++ beneficiaire.nom ++ " ou representant")],
     [some "Email ou Telephone", some ""],
     [some "Remarques eventuelles sur le materiel", some ""],
     [some "", some ""],
     [some "Date de reception et signature", some ""]]
  let w6 ← stdColWidths
  let footer := Flowable.para
    "Le preneur et le demandeur ont pris connaissance et accepte la notice d information annexee a ce formulaire."
  let notice := Flowable.para
    "Notice d information en relation avec la mise a disposition ... (fixed legal and privacy notice, page 2)"
  pure
    [headerLogo, Flowable.spacer 1 10, title, Flowable.spacer 1 10,
     Flowable.table demandeur_data w1, Flowable.spacer 1 5,
     Flowable.table profit_data w2, Flowable.spacer 1 5,
     Flowable.table materiel_data w3, Flowable.spacer 1 5,
     Flowable.table duree_data w4, Flowable.spacer 1 5,
     Flowable.table avis_data w5, Flowable.spacer 1 5,
     Flowable.table accuse_data w6, Flowable.spacer 1 10,
     footer, Flowable.spacer 1 10, headerLogo, Flowable.spacer 1 20,
     notice]

/-- The NameError message every render raises. -/
def nameErrCm : String := "NameError: name cm is not defined"

/-! ## Endpoint plumbing -/

/-- How an endpoint call can fail: an `HTTPException(code, detail)` raised
by the handler, a pydantic validation error (FastAPI answers 422), or an
exception that escapes the handler uncaught (FastAPI answers 500). -/
inductive ApiError where
  | httpError (code : Nat) (detail : String)
  | validationError (msg : String)
  | internalError (msg : String)
deriving DecidableEq, Repr

/-- The decoded JWT claims a handler sees (`verify_token`): the subject id
and the role. -/
structure TokenData where
  user_id : String
  role : String
deriving DecidableEq, Repr

/-- The denormalized submitter view attached to a fetched request
(server.py lines 538-543). -/
structure UserInfo where
  email : String
  first_name : String
  last_name : String
  role : String
deriving DecidableEq, Repr

def mkUserInfo (u : User) : UserInfo :=
  { email := u.email, first_name := u.first_name,
    last_name := u.last_name, role := u.role }

/-! ## The TopDesk notification (`send_to_topdesk`, server.py lines 139-163) -/

/-- The incident payload posted to the webhook (server.py lines 146-158). -/
structure Incident where
  caller_email : String
  caller_firstName : String
  caller_lastName : String
  briefDescription : String
  request_text : String
deriving DecidableEq, Repr

/-- One outbound HTTP POST as observed by the external world: its target
URL, its payload, and the timeout it was given. -/
structure WebCall where
  url : String
  payload : Incident
  timeout : Nat
deriving DecidableEq, Repr

/-- The outcome the external world gives the single `requests.post` call:
an HTTP response with some status code (2xx or not), or a raised transport
exception (connection error, timeout, ...). -/
inductive PostOutcome where
  | response (code : Nat)
  | transportError (msg : String)
deriving DecidableEq, Repr

/-- The incident body built from the merged request + submitter data
(server.py lines 146-158, transliterated). -/
def incidentOf (doc : StoredRequest) (user : User) : Incident :=
  { caller_email := user.email
    caller_firstName := user.first_name
    caller_lastName := user.last_name
    briefDescription := "Demande d appareil EBS - " ++ String.intercalate ", " doc.devices
    request_text :=
      "Demande d appareil educatif EBS:\n"
        ++ "Appareils: " ++ String.intercalate ", " doc.devices ++ "\n"
        ++ "Beneficiaire: " ++ doc.beneficiaire.prenom ++ " " ++ doc.beneficiaire.nom ++ "\n"
        ++ "Ecole: " ++ doc.beneficiaire.ecole ++ "\n"
        ++ "Exigences: " ++ doc.application_requirements }

/-- The body of the `try` block of `send_to_topdesk`: build the incident and
perform the single `requests.post(url, json=incident, timeout=10)`.  The
`Except` carries a raised transport exception out of the body. -/
def send_to_topdesk_attempt (outcome : PostOutcome) : Except String Nat :=
  match outcome with
  | PostOutcome.response code => Except.ok code
  | PostOutcome.transportError e => Except.error e

/-- `send_to_topdesk` (server.py lines 139-163).  Returns the list of
outbound calls actually attempted: the guard `if not TOPDESK_WEBHOOK_URL:
return` makes an unconfigured webhook a no-op; otherwise exactly one post
with timeout 10 is attempted, and the surrounding `try/except Exception`
swallows any raised error (both match arms return normally), so the
function is total — its type has no error channel. -/
def send_to_topdesk (webhookUrl : String) (doc : StoredRequest) (user : User)
    (outcome : PostOutcome) : List WebCall :=
  if webhookUrl.isEmpty then []
  else
    let call : WebCall := { url := webhookUrl, payload := incidentOf doc user, timeout := 10 }
    match send_to_topdesk_attempt outcome with
    | Except.ok _code => [call]
    | Except.error _e => [call]

/-! ## Creation (`create_request`, server.py lines 466-501) -/

/-- The store of request documents: Mongo `requests_collection` as an
association list keyed by `_id` (`find_one` is first match, `insert_one`
appends). -/
abbrev ReqStore := List (String × StoredRequest)

def lookupReq (reqs : ReqStore) (rid : String) : Option StoredRequest :=
  (reqs.find? (fun p => p.1 == rid)).map Prod.snd

/-- The request document built at creation (server.py lines 475-488):
status `en_attente`, both timestamps stamped from the creation-time clock,
no admin fields, no PDF artifact yet. -/
def newRequestDoc (uid : String) (payload : DeviceRequest) (rid now : String) :
    StoredRequest :=
  { id := rid
    user_id := uid
    devices := payload.devices
    application_requirements := payload.application_requirements
    beneficiaire := payload.beneficiaire
    lieu_reception := payload.lieu_reception
    duree_fin_disposition := payload.duree_fin_disposition
    phone := payload.phone
    address := payload.address
    status := "en_attente"
    created_at := now
    updated_at := now
    device_serial_numbers := none
    device_asset_tags := none
    admin_notes := none
    official_pdf_path := none
    official_pdf_generated := none }

/-- `create_request` (server.py lines 466-501): 404 when the token's user
is not in the users collection; otherwise build the document with a fresh
uuid `rid`, insert it, fire the best-effort TopDesk webhook, and answer
with the new request id.  The result carries the new store, the
`request_id` of the response, and the outbound calls attempted. -/
def create_request (reqs : ReqStore) (uid : String) (user? : Option User)
    (payload : DeviceRequest) (rid now : String)
    (webhookUrl : String) (outcome : PostOutcome) :
    Except ApiError (ReqStore × String × List WebCall) :=
  match user? with
  | none => Except.error (ApiError.httpError 404 "User not found")
  | some user =>
      let doc := newRequestDoc uid payload rid now
      let reqs2 := reqs ++ [(rid, doc)]
      let calls := send_to_topdesk webhookUrl doc user outcome
      Except.ok (reqs2, rid, calls)

/-! ## Fetch (`get_request`, server.py lines 525-545) -/

/-- `get_request`: 404 for an unknown id, 403 when the caller is neither an
admin nor the submitter, else the record (annotated with the submitter view
when the submitter user is found). -/
def get_request (req? : Option StoredRequest) (token : TokenData)
    (submitter? : Option User) :
    Except ApiError (StoredRequest × Option UserInfo) :=
  match req? with
  | none => Except.error (ApiError.httpError 404 "Request not found")
  | some r =>
      if token.role != "admin" && r.user_id != token.user_id then
        Except.error (ApiError.httpError 403 "Access denied")
      else
        Except.ok (r, submitter?.map mkUserInfo)

/-! ## Admin update (`update_request`, server.py lines 547-609) -/

/-- Python `str.isspace()` — the exact character set `str.strip()` removes,
generated from CPython 3.11: 0x9-0xD (tab, LF, vertical tab, form feed,
CR), the separators 0x1C-0x1F, space, NEL 0x85, NBSP 0xA0, and the Unicode
space/line/paragraph separators. -/
def pyIsSpace (c : Char) : Bool :=
  let n := c.toNat
  (decide (0x9 ≤ n) && decide (n ≤ 0xD))
    || (decide (0x1C ≤ n) && decide (n ≤ 0x1F))
    || n == 0x20 || n == 0x85 || n == 0xA0 || n == 0x1680
    || (decide (0x2000 ≤ n) && decide (n ≤ 0x200A))
    || n == 0x2028 || n == 0x2029 || n == 0x202F || n == 0x205F || n == 0x3000

/-- Python `str.strip()` on the character list: drop leading and trailing
Python whitespace. -/
def pyStrip (cs : List Char) : List Char :=
  ((cs.dropWhile pyIsSpace).reverse.dropWhile pyIsSpace).reverse

/-- Python `not serial or not serial.strip()` for `serial = dict.get(d)`:
a missing, empty, or all-whitespace serial is blank. -/
def serialBlank : Option String → Bool
  | none => true
  | some s => s.isEmpty || (pyStrip s.toList).isEmpty

/-- One requested device kind that makes the serial check fail: it is in
the mandatory set {ipad, macbook} and its proposed serial is blank. -/
def mandatorySerialMissing (serials : List (String × String)) (d : String) : Bool :=
  (d == "ipad" || d == "macbook") && serialBlank (dictGet serials d)

/-- The 400 detail naming the device (server.py line 561, transliterated);
`String.capitalize` is Python `str.title()` on the one-word lowercase
device names it is applied to. -/
def serialErrMsg (device : String) : String :=
  "Numero de serie obligatoire pour " ++ device.capitalize
    ++ " lors de l approbation/preparation"

/-- The serial-number validation of `update_request` (server.py lines
553-562): it runs only when the target status is approuve or prepare AND
the payload carries a truthy (non-None, non-empty) serial map; it walks the
request's stored device list and raises a 400 naming the first mandatory
device whose proposed serial is blank. -/
def serialCheck (r : StoredRequest) (u : RequestUpdate) : Option String :=
  if (u.status == "approuve" || u.status == "prepare")
      && dictTruthy u.device_serial_numbers then
    match r.devices.find? (mandatorySerialMissing (u.device_serial_numbers.getD [])) with
    | some d => some (serialErrMsg d)
    | none => none
  else none

/-- The `$set` of `update_fields` (server.py lines 564-582): status and the
update timestamp always; each of the three optional fields only when the
supplied value is truthy — `None`, the empty dict and the empty string all
leave the stored field untouched.  No other key of the document is in the
`$set`. -/
def applyUpdateFields (r : StoredRequest) (u : RequestUpdate) (now : String) :
    StoredRequest :=
  { r with
    status := u.status
    updated_at := now
    device_serial_numbers :=
      if dictTruthy u.device_serial_numbers then u.device_serial_numbers
      else r.device_serial_numbers
    device_asset_tags :=
      if dictTruthy u.device_asset_tags then u.device_asset_tags
      else r.device_asset_tags
    admin_notes :=
      if strOptTruthy u.admin_notes then u.admin_notes else r.admin_notes }

/-- The response body of a successful update (server.py line 609). -/
def successMsg : String := "Request updated successfully"

/-- The artifact path stored on successful PDF generation (server.py lines
593-594). -/
def pdfPath (rid today : String) : String :=
  "/tmp/EBS_demande_" ++ rid ++ "_" ++ today ++ ".pdf"

/-- `update_request` (server.py lines 547-609), with the renderer the PDF
step calls made an explicit argument (the source calls the module-level
`generate_official_ebs_pdf`; `update_request` below instantiates it).
After the 404 check and the serial validation, the `$set` is applied; when
the new status is `prepare` the PDF step runs inside `try/except`: it looks
up the submitter (skipping silently if absent, `if user:`), re-reads the
updated document, renders, writes the file and persists the artifact path
plus the `official_pdf_generated` marker — and any exception of that block
is caught and logged, the endpoint still answering success. -/
def update_request_core
    (render : StoredRequest → User → Except String (List Flowable))
    (req? : Option StoredRequest) (user? : Option User)
    (u : RequestUpdate) (now today : String) :
    Except ApiError (StoredRequest × String) :=
  match req? with
  | none => Except.error (ApiError.httpError 404 "Request not found")
  | some r =>
      match serialCheck r u with
      | some detail => Except.error (ApiError.httpError 400 detail)
      | none =>
          let r1 := applyUpdateFields r u now
          if u.status == "prepare" then
            match user? with
            | some user =>
                match render r1 user with
              | Except.ok _pdf =>
                  Except.ok ({ r1 with
                    official_pdf_path := some (pdfPath r.id today)
                    official_pdf_generated := some true }, successMsg)
              | Except.error _e => Except.ok (r1, successMsg)
            | none => Except.ok (r1, successMsg)
          else Except.ok (r1, successMsg)

/-- The concrete `update_request` endpoint: the PDF step calls
`generate_official_ebs_pdf` with the date of the day. -/
def update_request (req? : Option StoredRequest) (user? : Option User)
    (u : RequestUpdate) (now today : String) :
    Except ApiError (StoredRequest × String) :=
  update_request_core (fun rr uu => generate_official_ebs_pdf rr uu today)
    req? user? u now today

/-- The public PUT interface: pydantic parses the payload, running
`validate_asset_tags` (a failure is a 422 before the handler runs, the
validator otherwise returns the value unchanged), then the handler runs. -/
def put_request_api (req? : Option StoredRequest) (user? : Option User)
    (u : RequestUpdate) (now today : String) :
    Except ApiError (StoredRequest × String) :=
  match validate_asset_tags u.device_asset_tags with
  | Except.error msg => Except.error (ApiError.validationError msg)
  | Except.ok v =>
      update_request req? user? { u with device_asset_tags := v } now today

/-! ## PDF download (`download_pdf`, server.py lines 626-653) -/

/-- `download_pdf`: 404 / 403 / 404 checks as in the source, then an
unguarded call to the renderer — an exception it raises escapes the handler
(there is no try/except here) and surfaces as an internal error. -/
def download_pdf (req? : Option StoredRequest) (token : TokenData)
    (submitter? : Option User) (today : String) :
    Except ApiError (List Flowable) :=
  match req? with
  | none => Except.error (ApiError.httpError 404 "Request not found")
  | some r =>
      if token.role != "admin" && r.user_id != token.user_id then
        Except.error (ApiError.httpError 403 "Access denied")
      else
        match submitter? with
        | none => Except.error (ApiError.httpError 404 "User not found")
        | some user =>
            match generate_official_ebs_pdf r user today with
            | Except.ok pdf => Except.ok pdf
            | Except.error e => Except.error (ApiError.internalError e)

/-! ## Concrete sample data (the repository's own test scenario) -/

def exBen : BeneficiaireInfo :=
  { nom := "Dupont", prenom := "Jean", date_naissance := "2010-05-15",
    ecole := "Ecole Test Luxembourg", classe := "6e annee",
    qualite_ebs := "EBS", personne_reference := some "Marie Dupont" }

def exUser : User :=
  { id := "u1", email := "admin@eseb.com", first_name := "Ada",
    last_name := "Admin", role := "admin", fonction := none,
    adresse_complete := none, telephone := none }

def exPayload : DeviceRequest :=
  { devices := ["ipad", "apple_pencil"],
    application_requirements := "Applications educatives pour besoins specifiques",
    beneficiaire := exBen, lieu_reception := some "Centre Technolink",
    duree_fin_disposition := none, phone := none, address := none }

/-- The stored record the sample creation produces. -/
def exReq : StoredRequest := newRequestDoc "u1" exPayload "r1" "T0"

def exAdminTok : TokenData := { user_id := "u9", role := "admin" }

/-! ## Helper lemmas (shared by the claim theorems) -/

/-- A decidable view of endpoint success. -/
def isOkB {α : Type} : Except ApiError α → Bool
  | Except.ok _ => true
  | Except.error _ => false

/-- Every render raises the NameError: the first table's
`colWidths=[8*cm, 10*cm]` resolves the unimported name `cm`. -/
theorem generate_pdf_err (r : StoredRequest) (u : User) (t : String) :
    generate_official_ebs_pdf r u t = Except.error nameErrCm := rfl

/-- When the serial validation does not fire, every path of the concrete
update endpoint answers success with exactly the `$set` applied: the PDF
step, when reached, always has its render fail and the failure is caught. -/
theorem update_request_eq_of_none (r : StoredRequest) (user? : Option User)
    (u : RequestUpdate) (now today : String) (h : serialCheck r u = none) :
    update_request (some r) user? u now today
      = Except.ok (applyUpdateFields r u now, successMsg) := by
  simp only [update_request, update_request_core]
  rw [h]
  by_cases hst : (u.status == "prepare") = true
  · cases user? with
    | none => simp [hst]
    | some user => simp [hst, generate_pdf_err]
  · simp [hst]

/-- A failing serial validation is answered with the 400 and nothing else
runs. -/
theorem update_request_eq_of_some (r : StoredRequest) (user? : Option User)
    (u : RequestUpdate) (now today : String) (d : String)
    (h : serialCheck r u = some d) :
    update_request (some r) user? u now today
      = Except.error (ApiError.httpError 400 d) := by
  simp only [update_request, update_request_core]
  rw [h]

/-- Shape of every successful concrete update: the record written is the
`$set` of the supplied fields. -/
theorem update_request_ok_shape (r : StoredRequest) (user? : Option User)
    (u : RequestUpdate) (now today : String) (r' : StoredRequest) (msg : String)
    (hok : update_request (some r) user? u now today = Except.ok (r', msg)) :
    r' = applyUpdateFields r u now ∧ msg = successMsg := by
  cases hc : serialCheck r u with
  | some d =>
      rw [update_request_eq_of_some r user? u now today d hc] at hok
      exact absurd hok (by simp)
  | none =>
      rw [update_request_eq_of_none r user? u now today hc] at hok
      simp only [Except.ok.injEq, Prod.mk.injEq] at hok
      exact ⟨hok.1.symm, hok.2.symm⟩

/-- With a target status of approuve/prepare and a truthy serial map, the
serial validation reduces to the walk over the stored device list. -/
theorem serialCheck_fires (r : StoredRequest) (u : RequestUpdate)
    (hst : u.status = "approuve" ∨ u.status = "prepare")
    (htr : dictTruthy u.device_serial_numbers = true) :
    serialCheck r u =
      match r.devices.find?
          (mandatorySerialMissing (u.device_serial_numbers.getD [])) with
      | some d => some (serialErrMsg d)
      | none => none := by
  unfold serialCheck
  rcases hst with h | h <;> simp [h, htr]

/-- With no truthy serial map supplied, the serial validation never fires. -/
theorem serialCheck_off (r : StoredRequest) (u : RequestUpdate)
    (h : dictTruthy u.device_serial_numbers = false) :
    serialCheck r u = none := by
  unfold serialCheck
  simp [h]

/-- Unfolding of the per-device predicate of the serial walk. -/
theorem mandatory_iff (ms : List (String × String)) (d : String) :
    mandatorySerialMissing ms d = true
      ↔ ((d = "ipad" ∨ d = "macbook") ∧ serialBlank (dictGet ms d) = true) := by
  simp [mandatorySerialMissing, Bool.and_eq_true, Bool.or_eq_true, beq_iff_eq]

/-- The Boolean tag predicate of the validator loop, failing side. -/
theorem tagPred_eq_true_iff (t : String) :
    ((!t.isEmpty && !tagMatches t) = true) ↔ (t ≠ "" ∧ tagMatches t = false) := by
  simp only [Bool.and_eq_true, Bool.not_eq_true']
  constructor
  · rintro ⟨h1, h2⟩
    exact ⟨fun he => by rw [he] at h1; exact absurd h1 (by decide), h2⟩
  · rintro ⟨h1, h2⟩
    refine ⟨?_, h2⟩
    cases he : t.isEmpty with
    | false => rfl
    | true => exact absurd ((String.isEmpty_iff t).mp he) h1

/-- ASCII digits are Unicode decimal digits: the spec pattern's character
class is contained in Python's `\d`. -/
theorem isDigit_imp_pyIsDigit (c : Char) (h : c.isDigit = true) :
    pyIsDigit c = true := by
  simp [pyIsDigit, h]

/-- Everything the literal spec pattern `^H[0-9]{5}$` matches, the code's
`^H\d{5}$` matches. -/
theorem specTagCore_imp_tagCoreMatches (cs : List Char)
    (h : specTagCore cs = true) : tagCoreMatches cs = true := by
  cases cs with
  | nil => exact absurd h (by simp [specTagCore, tagCoreWith])
  | cons c rest =>
      simp only [specTagCore, tagCoreMatches, tagCoreWith, Bool.and_eq_true,
        List.all_eq_true] at h ⊢
      exact ⟨h.1, fun x hx => isDigit_imp_pyIsDigit x (h.2 x hx)⟩

/-! ## The claims -/

/-- C2: the claim says `generate_official_ebs_pdf` completes and returns
document bytes for every request/submitter, and that a download call on an
existing viewable request returns a document.  The code contradicts it on
every input: the name `cm` used in every `colWidths=[8*cm, 10*cm]` is never
imported (server.py line 20 imports only `inch` and `mm`), so the first
table construction raises a NameError; `download_pdf` has no handler around
the render, so the exception escapes.  The repository's own test driver
expects the download to answer 200 with a PDF, so this is a bug in the
code, not in the claim. -/
theorem claim_C2_render_always_raises :
    (∀ (r : StoredRequest) (u : User) (t : String),
        generate_official_ebs_pdf r u t = Except.error nameErrCm)
    ∧ download_pdf (some exReq) exAdminTok (some exUser) "D1"
        = Except.error (ApiError.internalError nameErrCm) :=
  ⟨fun r u t => generate_pdf_err r u t, rfl⟩

/-- C4 counterexample: two tags are accepted by `validate_asset_tags`
although they are neither empty nor matches of `^H[0-9]{5}$` read as
exactly H plus five decimal digits: `H12345` followed by a newline (Python
`$` matches before a string-final newline) and H followed by five
Arabic-Indic digits 0x665 (Python `\d` matches any Unicode decimal digit)
— so "accepts t iff t is empty or matches ^H[0-9]{5}$" is false as
stated. -/
theorem claim_C4_counterexample :
    validate_asset_tags (some [("ipad", "H12345\n")])
        = Except.ok (some [("ipad", "H12345\n")])
    ∧ specAcceptsTag "H12345\n" = false
    ∧ "H12345\n" ≠ ""
    ∧ validate_asset_tags (some [("ipad", "H٥٥٥٥٥")])
        = Except.ok (some [("ipad", "H٥٥٥٥٥")])
    ∧ specAcceptsTag "H٥٥٥٥٥" = false
    ∧ "H٥٥٥٥٥" ≠ "" :=
  ⟨rfl, by decide, by decide, rfl, by decide, by decide⟩

/-- C4 (amended): `validate_asset_tags` accepts a supplied tag map iff
every tag in it is empty or matches the pattern under Python semantics —
exactly H followed by five digits, optionally followed by one final newline
(`tagMatches`); any offending map is rejected with an error naming an
offending device; and everything the spec pattern accepts the code
accepts. -/
theorem claim_C4_amended (m : List (String × String)) :
    ((validate_asset_tags (some m) = Except.ok (some m)) ↔
        ∀ p ∈ m, p.2 = "" ∨ tagMatches p.2 = true)
    ∧ ((∃ p ∈ m, p.2 ≠ "" ∧ tagMatches p.2 = false) →
        ∃ p ∈ m, p.2 ≠ "" ∧ tagMatches p.2 = false
          ∧ validate_asset_tags (some m) = Except.error (tagErrMsg p.1))
    ∧ (∀ t : String, specAcceptsTag t = true → t = "" ∨ tagMatches t = true) := by
  refine ⟨⟨?_, ?_⟩, ?_, ?_⟩
  · intro h p hp
    cases hf : m.find? (fun p => !p.2.isEmpty && !tagMatches p.2) with
    | some q => simp [validate_asset_tags, hf] at h
    | none =>
        have hnp := List.find?_eq_none.mp hf p hp
        rw [Bool.not_eq_true] at hnp
        by_cases he : p.2 = ""
        · exact Or.inl he
        · cases ht : tagMatches p.2 with
          | true => exact Or.inr rfl
          | false =>
              have hcontra := (tagPred_eq_true_iff p.2).mpr ⟨he, ht⟩
              rw [hnp] at hcontra
              exact absurd hcontra (by simp)
  · intro h
    cases hf : m.find? (fun p => !p.2.isEmpty && !tagMatches p.2) with
    | some q =>
        have hq0 := List.find?_some hf
        have hq := (tagPred_eq_true_iff q.2).mp hq0
        have hqm := List.mem_of_find?_eq_some hf
        rcases h q hqm with h1 | h2
        · exact absurd h1 hq.1
        · rw [hq.2] at h2; exact absurd h2 (by simp)
    | none => simp [validate_asset_tags, hf]
  · rintro ⟨p, hp, hne, hfalse⟩
    cases hf : m.find? (fun p => !p.2.isEmpty && !tagMatches p.2) with
    | none =>
        have hnp := List.find?_eq_none.mp hf p hp
        rw [Bool.not_eq_true] at hnp
        have hcontra := (tagPred_eq_true_iff p.2).mpr ⟨hne, hfalse⟩
        rw [hnp] at hcontra
        exact absurd hcontra (by simp)
    | some q =>
        have hq0 := List.find?_some hf
        have hq := (tagPred_eq_true_iff q.2).mp hq0
        exact ⟨q, List.mem_of_find?_eq_some hf, hq.1, hq.2,
          by simp [validate_asset_tags, hf]⟩
  · intro t h
    have h' : t = "" ∨ specTagCore t.toList = true := by
      simpa [specAcceptsTag] using h
    rcases h' with h1 | h2
    · exact Or.inl h1
    · refine Or.inr ?_
      unfold tagMatches
      rw [specTagCore_imp_tagCoreMatches t.toList h2]
      rfl

/-- C1 counterexample: the stored request asks for an ipad, the admin
update targets approuve and supplies no serial map at all — the claim says
the update must fail for lack of an ipad serial, but the code skips the
serial validation whenever the payload carries no truthy serial map, and
the update succeeds with still no serial stored. -/
theorem claim_C1_counterexample :
    update_request (some exReq) (some exUser) { status := "approuve" } "T1" "D1"
        = Except.ok (applyUpdateFields exReq { status := "approuve" } "T1", successMsg)
    ∧ "ipad" ∈ exReq.devices
    ∧ (applyUpdateFields exReq { status := "approuve" } "T1").status = "approuve"
    ∧ (applyUpdateFields exReq { status := "approuve" } "T1").device_serial_numbers
        = none :=
  ⟨rfl, by decide, rfl, rfl⟩

/-- C1 (amended): the serial requirement is enforced only when the update
supplies a truthy (non-None, non-empty) serial map.  With no such map the
update succeeds unconditionally; with one, the update succeeds iff every
requested ipad/macbook has a non-blank serial in the map, and any
violation is answered with a 400 naming a violating device
(capitalised). -/
theorem claim_C1_amended (r : StoredRequest) (user? : Option User)
    (u : RequestUpdate) (now today : String)
    (hst : u.status = "approuve" ∨ u.status = "prepare") :
    (dictTruthy u.device_serial_numbers = false →
        update_request (some r) user? u now today
          = Except.ok (applyUpdateFields r u now, successMsg))
    ∧ (dictTruthy u.device_serial_numbers = true →
        ((update_request (some r) user? u now today
            = Except.ok (applyUpdateFields r u now, successMsg))
          ↔ ∀ d ∈ r.devices, (d = "ipad" ∨ d = "macbook") →
              serialBlank (dictGet (u.device_serial_numbers.getD []) d) = false))
    ∧ (dictTruthy u.device_serial_numbers = true →
        ∀ d ∈ r.devices, (d = "ipad" ∨ d = "macbook") →
          serialBlank (dictGet (u.device_serial_numbers.getD []) d) = true →
          ∃ d2 ∈ r.devices, (d2 = "ipad" ∨ d2 = "macbook")
            ∧ serialBlank (dictGet (u.device_serial_numbers.getD []) d2) = true
            ∧ update_request (some r) user? u now today
                = Except.error (ApiError.httpError 400 (serialErrMsg d2))) := by
  refine ⟨?_, ?_, ?_⟩
  · intro h
    exact update_request_eq_of_none r user? u now today (serialCheck_off r u h)
  · intro htr
    cases hf : r.devices.find?
        (mandatorySerialMissing (u.device_serial_numbers.getD [])) with
    | none =>
        have hsc : serialCheck r u = none := by
          rw [serialCheck_fires r u hst htr, hf]
        constructor
        · intro _ d hd hdk
          have hnp := List.find?_eq_none.mp hf d hd
          rw [Bool.not_eq_true] at hnp
          cases hb : serialBlank (dictGet (u.device_serial_numbers.getD []) d) with
          | false => rfl
          | true =>
              have hcontra := (mandatory_iff _ d).mpr ⟨hdk, hb⟩
              rw [hnp] at hcontra
              exact absurd hcontra (by simp)
        · intro _
          exact update_request_eq_of_none r user? u now today hsc
    | some d =>
        have hsc : serialCheck r u = some (serialErrMsg d) := by
          rw [serialCheck_fires r u hst htr, hf]
        have herr := update_request_eq_of_some r user? u now today _ hsc
        have hd := (mandatory_iff _ d).mp (List.find?_some hf)
        constructor
        · intro hok
          rw [herr] at hok
          exact absurd hok (by simp)
        · intro hall
          have := hall d (List.mem_of_find?_eq_some hf) hd.1
          rw [hd.2] at this
          exact absurd this (by simp)
  · intro htr d hd hdk hblank
    cases hf : r.devices.find?
        (mandatorySerialMissing (u.device_serial_numbers.getD [])) with
    | none =>
        have hnp := List.find?_eq_none.mp hf d hd
        rw [Bool.not_eq_true] at hnp
        have hcontra := (mandatory_iff _ d).mpr ⟨hdk, hblank⟩
        rw [hnp] at hcontra
        exact absurd hcontra (by simp)
    | some d2 =>
        have hsc : serialCheck r u = some (serialErrMsg d2) := by
          rw [serialCheck_fires r u hst htr, hf]
        have hd2 := (mandatory_iff _ d2).mp (List.find?_some hf)
        exact ⟨d2, List.mem_of_find?_eq_some hf, hd2.1, hd2.2,
          update_request_eq_of_some r user? u now today _ hsc⟩

/-- C1 witness: the amended theorem applied to the sample request twice —
the serial-map-free approuve update succeeds, and an approuve update whose
ipad serial is the Python-whitespace-only string 0x0B (vertical tab, which
`str.strip()` removes) is answered with the 400 naming the device. -/
theorem claim_C1_amended_witness :
    (update_request (some exReq) (some exUser) { status := "approuve" } "T1" "D1"
      = Except.ok (applyUpdateFields exReq { status := "approuve" } "T1", successMsg))
    ∧ ∃ d2 ∈ exReq.devices, (d2 = "ipad" ∨ d2 = "macbook")
        ∧ serialBlank (dictGet [("ipad", "\x0B")] d2) = true
        ∧ update_request (some exReq) (some exUser)
            { status := "approuve",
              device_serial_numbers := some [("ipad", "\x0B")] } "T1" "D1"
          = Except.error (ApiError.httpError 400 (serialErrMsg d2)) :=
  ⟨(claim_C1_amended exReq (some exUser) { status := "approuve" } "T1" "D1"
      (Or.inl rfl)).1 rfl,
   (claim_C1_amended exReq (some exUser)
      { status := "approuve", device_serial_numbers := some [("ipad", "\x0B")] }
      "T1" "D1" (Or.inl rfl)).2.2 rfl "ipad" (by decide) (Or.inl rfl) (by decide)⟩

/-- C3: a validated update to status `prepare` persists the status change
and answers success whatever the renderer does: a render error is caught
inside the PDF step and never surfaced (the record is exactly the `$set`),
and a render success additionally persists the artifact path and the
`official_pdf_generated` marker.  Stated over `update_request_core` with
the renderer abstract — the source's endpoint is its instance at
`generate_official_ebs_pdf`. -/
theorem claim_C3_prepare_partial_failure
    (render : StoredRequest → User → Except String (List Flowable))
    (r : StoredRequest) (user : User) (u : RequestUpdate) (now today : String)
    (hst : u.status = "prepare") (hval : serialCheck r u = none) :
    ((applyUpdateFields r u now).status = "prepare")
    ∧ (∀ e, render (applyUpdateFields r u now) user = Except.error e →
        update_request_core render (some r) (some user) u now today
          = Except.ok (applyUpdateFields r u now, successMsg))
    ∧ (∀ doc, render (applyUpdateFields r u now) user = Except.ok doc →
        update_request_core render (some r) (some user) u now today
          = Except.ok ({ applyUpdateFields r u now with
              official_pdf_path := some (pdfPath r.id today)
              official_pdf_generated := some true }, successMsg))
    ∧ update_request (some r) (some user) u now today
        = update_request_core (fun rr uu => generate_official_ebs_pdf rr uu today)
            (some r) (some user) u now today := by
  refine ⟨by simp [applyUpdateFields, hst], ?_, ?_, rfl⟩
  · intro e he
    simp only [update_request_core]
    rw [hval, hst]
    simp only [beq_self_eq_true, if_true]
    rw [he]
  · intro doc hdoc
    simp only [update_request_core]
    rw [hval, hst]
    simp only [beq_self_eq_true, if_true]
    rw [hdoc]

/-- C3 witness: the theorem applied at the sample request, a prepare update
with a valid ipad serial, and a renderer that fails — the status update
still succeeds. -/
theorem claim_C3_witness :
    update_request_core (fun _ _ => Except.error "render boom") (some exReq)
        (some exUser)
        { status := "prepare", device_serial_numbers := some [("ipad", "SN1")] }
        "T1" "D1"
      = Except.ok (applyUpdateFields exReq
          { status := "prepare", device_serial_numbers := some [("ipad", "SN1")] }
          "T1", successMsg) :=
  ((claim_C3_prepare_partial_failure (fun _ _ => Except.error "render boom")
      exReq exUser
      { status := "prepare", device_serial_numbers := some [("ipad", "SN1")] }
      "T1" "D1" rfl (by decide)).2.1) "render boom" rfl

/-- The record the C5 counterexample update persists: the stored request
for an ipad and a stylus, with a serial map keyed by `macbook`. -/
def exReqAfterForeignKey : StoredRequest :=
  { exReq with
      status := "termine"
      updated_at := "T1"
      device_serial_numbers := some [("macbook", "SN-X")] }

/-- C5 counterexample: the invariant "serial/tag map keys are a subset of
the requested devices" does not survive updates.  The sample creation
stores a request for an ipad and a stylus; a later admin update stores a
serial map whose only key is `macbook`, which is not among the requested
devices — and it is persisted verbatim. -/
theorem claim_C5_counterexample :
    create_request [] "u1" (some exUser) exPayload "r1" "T0" ""
        (PostOutcome.response 200)
      = Except.ok ([("r1", exReq)], "r1", [])
    ∧ update_request (some exReq) (some exUser)
        { status := "termine", device_serial_numbers := some [("macbook", "SN-X")] }
        "T1" "D1"
      = Except.ok (exReqAfterForeignKey, successMsg)
    ∧ exReqAfterForeignKey.device_serial_numbers = some [("macbook", "SN-X")]
    ∧ "macbook" ∈ ([("macbook", "SN-X")] : List (String × String)).map Prod.fst
    ∧ "macbook" ∉ exReqAfterForeignKey.devices :=
  ⟨rfl, rfl, rfl, by decide, by decide⟩

/-- C5 (amended): the subset invariant is not enforced by the code.  What
does hold: a freshly created record carries no serial/tag map at all
(trivially a subset), and a successful update stores the supplied maps
verbatim — whatever their keys — keeping the old ones when the supplied
value is not truthy. -/
theorem claim_C5_amended (r : StoredRequest) (user? : Option User)
    (u : RequestUpdate) (now today : String) (r' : StoredRequest) (msg : String)
    (hok : update_request (some r) user? u now today = Except.ok (r', msg)) :
    (∀ (uid : String) (payload : DeviceRequest) (rid cnow : String),
        (newRequestDoc uid payload rid cnow).device_serial_numbers = none
        ∧ (newRequestDoc uid payload rid cnow).device_asset_tags = none)
    ∧ r'.device_serial_numbers
        = (if dictTruthy u.device_serial_numbers then u.device_serial_numbers
           else r.device_serial_numbers)
    ∧ r'.device_asset_tags
        = (if dictTruthy u.device_asset_tags then u.device_asset_tags
           else r.device_asset_tags)
    ∧ r'.devices = r.devices := by
  obtain ⟨hr, -⟩ := update_request_ok_shape r user? u now today r' msg hok
  subst hr
  exact ⟨fun uid payload rid cnow => ⟨rfl, rfl⟩, rfl, rfl, rfl⟩

/-- C5 witness: the amended theorem applied to the counterexample update —
the foreign `macbook` key is stored verbatim. -/
theorem claim_C5_amended_witness :
    exReqAfterForeignKey.device_serial_numbers
      = (if dictTruthy (some [("macbook", "SN-X")]) then some [("macbook", "SN-X")]
         else exReq.device_serial_numbers) :=
  (claim_C5_amended exReq (some exUser)
    { status := "termine", device_serial_numbers := some [("macbook", "SN-X")] }
    "T1" "D1" _ _ rfl).2.1

/-- C6: the TopDesk dispatch at creation is best-effort: with an existing
submitter the create succeeds and returns the fresh id whatever the single
post's outcome; the attempted calls are independent of that outcome (any
transport error or non-2xx answer is swallowed by the `try/except`); no
configured endpoint means no call at all; and a configured endpoint gets
exactly one call with timeout 10 — never a retry. -/
theorem claim_C6_notification_best_effort (reqs : ReqStore) (uid : String)
    (user : User) (payload : DeviceRequest) (rid now whUrl : String)
    (o o' : PostOutcome) :
    (create_request reqs uid (some user) payload rid now whUrl o
      = Except.ok (reqs ++ [(rid, newRequestDoc uid payload rid now)], rid,
          send_to_topdesk whUrl (newRequestDoc uid payload rid now) user o))
    ∧ send_to_topdesk whUrl (newRequestDoc uid payload rid now) user o
        = send_to_topdesk whUrl (newRequestDoc uid payload rid now) user o'
    ∧ send_to_topdesk "" (newRequestDoc uid payload rid now) user o = []
    ∧ (whUrl ≠ "" →
        send_to_topdesk whUrl (newRequestDoc uid payload rid now) user o
          = [{ url := whUrl,
               payload := incidentOf (newRequestDoc uid payload rid now) user,
               timeout := 10 }]) := by
  refine ⟨rfl, ?_, ?_, ?_⟩
  · cases o <;> cases o' <;> rfl
  · cases o <;> rfl
  · intro hu
    have he : whUrl.isEmpty = false := by
      cases h : whUrl.isEmpty with
      | false => rfl
      | true => exact absurd ((String.isEmpty_iff whUrl).mp h) hu
    cases o <;> simp [send_to_topdesk, send_to_topdesk_attempt, he]

/-- C7: fetching an existing request succeeds iff the caller is an admin or
the submitter; the rejection is the 403 access-denied, distinct from the
404 answered for an unknown request id. -/
theorem claim_C7_get_access (r : StoredRequest) (tok : TokenData)
    (sub? : Option User) :
    get_request none tok sub? = Except.error (ApiError.httpError 404 "Request not found")
    ∧ (isOkB (get_request (some r) tok sub?) = true
        ↔ (tok.role = "admin" ∨ tok.user_id = r.user_id))
    ∧ ((tok.role ≠ "admin" ∧ tok.user_id ≠ r.user_id) →
        get_request (some r) tok sub? = Except.error (ApiError.httpError 403 "Access denied")) := by
  refine ⟨rfl, ?_, ?_⟩
  · constructor
    · intro hok
      by_cases h1 : tok.role = "admin"
      · exact Or.inl h1
      · by_cases h2 : tok.user_id = r.user_id
        · exact Or.inr h2
        · have h2' : r.user_id ≠ tok.user_id := fun he => h2 he.symm
          rw [show get_request (some r) tok sub?
              = Except.error (ApiError.httpError 403 "Access denied") from by
            simp [get_request, bne_iff_ne, h1, h2']] at hok
          exact absurd hok (by simp [isOkB])
    · intro hor
      rcases hor with h1 | h2
      · simp [get_request, isOkB, h1]
      · have heq : r.user_id = tok.user_id := h2.symm
        simp [get_request, isOkB, heq]
  · rintro ⟨h1, h2⟩
    have h2' : r.user_id ≠ tok.user_id := fun he => h2 he.symm
    simp [get_request, h1, h2', bne_iff_ne]

/-- A fresh id is found at the end of the collection after the insert. -/
theorem lookupReq_append_fresh (reqs : ReqStore) (rid : String)
    (doc : StoredRequest) (h : lookupReq reqs rid = none) :
    lookupReq (reqs ++ [(rid, doc)]) rid = some doc := by
  induction reqs with
  | nil => simp [lookupReq]
  | cons a t ih =>
      unfold lookupReq at h ⊢
      cases ha : (a.1 == rid) with
      | true => simp [List.find?_cons, ha] at h
      | false =>
          simp only [List.cons_append, List.find?_cons, ha] at h ⊢
          exact ih h

/-- C8: a creation call by an authenticated existing user succeeds, answers
the fresh id, and the inserted record has status `en_attente` with both
timestamps stamped from the creation-time clock. -/
theorem claim_C8_create_pending (reqs : ReqStore) (uid : String) (user : User)
    (payload : DeviceRequest) (rid now whUrl : String) (o : PostOutcome)
    (hfresh : lookupReq reqs rid = none) :
    create_request reqs uid (some user) payload rid now whUrl o
      = Except.ok (reqs ++ [(rid, newRequestDoc uid payload rid now)], rid,
          send_to_topdesk whUrl (newRequestDoc uid payload rid now) user o)
    ∧ lookupReq (reqs ++ [(rid, newRequestDoc uid payload rid now)]) rid
        = some (newRequestDoc uid payload rid now)
    ∧ (newRequestDoc uid payload rid now).status = "en_attente"
    ∧ (newRequestDoc uid payload rid now).created_at = now
    ∧ (newRequestDoc uid payload rid now).updated_at = now :=
  ⟨rfl, lookupReq_append_fresh reqs rid _ hfresh, rfl, rfl, rfl⟩

/-- C8 witness: creating the sample request in an empty store. -/
theorem claim_C8_witness :
    lookupReq ([] : ReqStore) "r1" = none
    ∧ (newRequestDoc "u1" exPayload "r1" "T0").status = "en_attente"
    ∧ lookupReq ([] ++ [("r1", newRequestDoc "u1" exPayload "r1" "T0")]) "r1"
        = some (newRequestDoc "u1" exPayload "r1" "T0") :=
  ⟨rfl,
   (claim_C8_create_pending [] "u1" exUser exPayload "r1" "T0" ""
      (PostOutcome.response 200) rfl).2.2.1,
   (claim_C8_create_pending [] "u1" exUser exPayload "r1" "T0" ""
      (PostOutcome.response 200) rfl).2.1⟩

/-- C9: on a successful admin update only the supplied fields plus the
update timestamp change: status is always written (it is a mandatory field
of the payload type), the update timestamp is always refreshed, every field
absent from the payload — identity, devices, beneficiary, logistics and
contact fields, the creation timestamp, and the PDF artifact fields — is
left untouched, and each optional payload field left non-truthy leaves its
stored counterpart unchanged. -/
theorem claim_C9_partial_update_frame (r : StoredRequest) (user? : Option User)
    (u : RequestUpdate) (now today : String) (r' : StoredRequest) (msg : String)
    (hok : update_request (some r) user? u now today = Except.ok (r', msg)) :
    r'.status = u.status ∧ r'.updated_at = now ∧ msg = successMsg
    ∧ r'.id = r.id ∧ r'.user_id = r.user_id ∧ r'.devices = r.devices
    ∧ r'.application_requirements = r.application_requirements
    ∧ r'.beneficiaire = r.beneficiaire
    ∧ r'.lieu_reception = r.lieu_reception
    ∧ r'.duree_fin_disposition = r.duree_fin_disposition
    ∧ r'.phone = r.phone ∧ r'.address = r.address
    ∧ r'.created_at = r.created_at
    ∧ (dictTruthy u.device_serial_numbers = false →
        r'.device_serial_numbers = r.device_serial_numbers)
    ∧ (dictTruthy u.device_asset_tags = false →
        r'.device_asset_tags = r.device_asset_tags)
    ∧ (strOptTruthy u.admin_notes = false → r'.admin_notes = r.admin_notes)
    ∧ r'.official_pdf_path = r.official_pdf_path
    ∧ r'.official_pdf_generated = r.official_pdf_generated := by
  obtain ⟨hr, hm⟩ := update_request_ok_shape r user? u now today r' msg hok
  subst hr
  refine ⟨rfl, rfl, hm, rfl, rfl, rfl, rfl, rfl, rfl, rfl, rfl, rfl, rfl,
    ?_, ?_, ?_, rfl, rfl⟩
  · intro h; simp [applyUpdateFields, h]
  · intro h; simp [applyUpdateFields, h]
  · intro h; simp [applyUpdateFields, h]

/-- The C9 witness update: a prepare with admin notes, no maps. -/
def exUpd9 : RequestUpdate := { status := "prepare", admin_notes := some "note ok" }

/-- C9 witness: the frame theorem applied to the sample request and a
prepare update carrying only notes. -/
theorem claim_C9_witness :
    update_request (some exReq) (some exUser) exUpd9 "T1" "D1"
      = Except.ok (applyUpdateFields exReq exUpd9 "T1", successMsg)
    ∧ (applyUpdateFields exReq exUpd9 "T1").devices = exReq.devices :=
  ⟨rfl, (claim_C9_partial_update_frame exReq (some exUser) exUpd9 "T1" "D1"
      _ _ rfl).2.2.2.2.2.1⟩

/-! ## C10: "present but empty" versus "absent" -/

/-- Normalising an update payload: a supplied-but-empty dict or string is
replaced by `none`.  Claim C10 says the endpoint cannot tell the two
apart. -/
def normOptDict : Option (List (String × String)) → Option (List (String × String))
  | none => none
  | some m => if m.isEmpty then none else some m

def normOptStr : Option String → Option String
  | none => none
  | some s => if s.isEmpty then none else some s

def normalizeUpdate (u : RequestUpdate) : RequestUpdate :=
  { status := u.status
    device_serial_numbers := normOptDict u.device_serial_numbers
    device_asset_tags := normOptDict u.device_asset_tags
    admin_notes := normOptStr u.admin_notes }

theorem normalizeUpdate_status (u : RequestUpdate) :
    (normalizeUpdate u).status = u.status := rfl

theorem dictTruthy_normOptDict (o : Option (List (String × String))) :
    dictTruthy (normOptDict o) = dictTruthy o := by
  cases o with
  | none => rfl
  | some m => cases m with
    | nil => rfl
    | cons a t => rfl

theorem strOptTruthy_normOptStr (o : Option String) :
    strOptTruthy (normOptStr o) = strOptTruthy o := by
  cases o with
  | none => rfl
  | some s =>
      unfold normOptStr strOptTruthy
      cases h : s.isEmpty <;> simp [h]

theorem normOptDict_eq_of_truthy (o : Option (List (String × String)))
    (h : dictTruthy o = true) : normOptDict o = o := by
  cases o with
  | none => simp [dictTruthy] at h
  | some m => cases m with
    | nil => simp [dictTruthy] at h
    | cons a t => rfl

theorem normOptStr_eq_of_truthy (o : Option String)
    (h : strOptTruthy o = true) : normOptStr o = o := by
  cases o with
  | none => simp [strOptTruthy] at h
  | some s =>
      have he : s.isEmpty = false := by
        by_contra hc
        rw [Bool.not_eq_false] at hc
        rw [show strOptTruthy (some s) = !s.isEmpty from rfl, hc] at h
        exact absurd h (by simp)
      show (if s.isEmpty = true then none else some s) = some s
      rw [he]
      simp

theorem serialCheck_norm (r : StoredRequest) (u : RequestUpdate) :
    serialCheck r (normalizeUpdate u) = serialCheck r u := by
  obtain ⟨st, dsn, dat, notes⟩ := u
  simp only [serialCheck, normalizeUpdate, dictTruthy_normOptDict]
  cases htr : dictTruthy dsn with
  | false => simp
  | true => rw [normOptDict_eq_of_truthy dsn htr]

theorem applyUpdateFields_norm (r : StoredRequest) (u : RequestUpdate)
    (now : String) :
    applyUpdateFields r (normalizeUpdate u) now = applyUpdateFields r u now := by
  obtain ⟨st, dsn, dat, notes⟩ := u
  simp only [applyUpdateFields, normalizeUpdate, dictTruthy_normOptDict,
    strOptTruthy_normOptStr]
  cases htr1 : dictTruthy dsn <;> cases htr2 : dictTruthy dat <;>
    cases htr3 : strOptTruthy notes <;>
      simp [htr1, htr2, htr3, normOptDict_eq_of_truthy, normOptStr_eq_of_truthy]

theorem update_request_core_norm
    (render : StoredRequest → User → Except String (List Flowable))
    (req? : Option StoredRequest) (user? : Option User) (u : RequestUpdate)
    (now today : String) :
    update_request_core render req? user? (normalizeUpdate u) now today
      = update_request_core render req? user? u now today := by
  cases req? with
  | none => rfl
  | some r =>
      simp only [update_request_core, serialCheck_norm, applyUpdateFields_norm,
        normalizeUpdate_status]

theorem update_request_norm (req? : Option StoredRequest) (user? : Option User)
    (u : RequestUpdate) (now today : String) :
    update_request req? user? (normalizeUpdate u) now today
      = update_request req? user? u now today :=
  update_request_core_norm _ req? user? u now today

/-- On success the pydantic validator returns the tag map unchanged. -/
theorem validate_asset_tags_ok (o v : Option (List (String × String)))
    (h : validate_asset_tags o = Except.ok v) : v = o := by
  cases o with
  | none =>
      injection h with h
      exact h.symm
  | some m =>
      cases hf : m.find? (fun p => !p.2.isEmpty && !tagMatches p.2) with
      | some p => simp [validate_asset_tags, hf] at h
      | none =>
          simp [validate_asset_tags, hf] at h
          exact h.symm

/-- C10: a supplied-but-empty admin-notes string, serial map or asset-tag
map is indistinguishable from an omitted field at the public PUT
interface: the call (validator included) answers exactly as if the field
were absent, so the stored field is left unchanged either way. -/
theorem claim_C10_empty_equals_absent (req? : Option StoredRequest)
    (user? : Option User) (u : RequestUpdate) (now today : String) :
    put_request_api req? user? u now today
      = put_request_api req? user? (normalizeUpdate u) now today := by
  obtain ⟨st, dsn, dat, notes⟩ := u
  cases dat with
  | none =>
      show update_request req? user? _ now today = update_request req? user? _ now today
      exact (update_request_norm req? user? ⟨st, dsn, none, notes⟩ now today).symm
  | some m =>
      cases m with
      | nil =>
          show update_request req? user? ⟨st, dsn, some [], notes⟩ now today
              = update_request req? user? _ now today
          exact (update_request_norm req? user? ⟨st, dsn, some [], notes⟩ now today).symm
      | cons a t =>
          have hnorm : normalizeUpdate ⟨st, dsn, some (a :: t), notes⟩
              = ⟨st, normOptDict dsn, some (a :: t), normOptStr notes⟩ := rfl
          rw [put_request_api, put_request_api, hnorm]
          cases hv : validate_asset_tags (some (a :: t)) with
          | error e => rfl
          | ok v =>
              have hveq := validate_asset_tags_ok _ _ hv
              subst hveq
              exact (update_request_norm req? user?
                ⟨st, dsn, some (a :: t), notes⟩ now today).symm

end ESEB
